import Mathlib

/-!
# Verification of `leader.go` (k8s-leader)

Shallow embedding of the leader-election package in `src/leader.go`.

The Go code talks to the Kubernetes API (ConfigMap get/create, Pod
get/delete), reads one environment variable and one file, sleeps, and
loops.  We embed it as a pure interpreter: every external response the
code can observe is a field of an environment record, and the
interpreter returns the list of orchestrator API calls it issued (the
trace) together with the result of `Become`.  The retry loop is driven
by a finite list of per-iteration responses, so a run that exhausts the
list is still looping (`none` result).

Time is modelled in whole seconds (`time.Second = 1`, so
`maxBackoffInterval = 16`).  `wait.Jitter` from
`k8s.io/apimachinery/pkg/util/wait` (external library, called at
`leader.go:121`) is modelled over `Rat`: it returns
`duration + sample * maxFactor * duration` where `sample` stands for
`rand.Float64() ∈ [0,1)`; float rounding is abstracted away.
-/

namespace K8sLeader

/-- `metav1.OwnerReference`: the fields `leader.go` reads or writes
(`myOwnerRef`, lines 141-146, and the `Kind`/`Name` inspections in the
retry loop). -/
structure OwnerReference where
  apiVersion : String
  kind : String
  name : String
  uid : String
  deriving DecidableEq

/-- `v1.ConfigMap`: name, namespace and owner references are the only
parts the code touches. -/
structure ConfigMap where
  name : String
  nspace : String
  ownerReferences : List OwnerReference
  deriving DecidableEq

/-- `v1.Pod`: the fields read by `isPodEvicted` and the deletion check
(`Status.Phase`, `Status.Reason`, deletion timestamp), plus name/UID
used by `myOwnerRef`.  Phases are the K8s string constants
("Running", "Failed", ...). -/
structure Pod where
  name : String
  uid : String
  phase : String
  reason : String
  deletionTimestamp : Option Nat
  deriving DecidableEq

/-- Result of `ConfigMaps(ns).Get` as classified by the code
(`err == nil` / `apierrors.IsNotFound` / default). -/
inductive GetCMResult where
  | ok (cm : ConfigMap)
  | notFound
  | otherError
  deriving DecidableEq

/-- Result of `ConfigMaps(ns).Create` as classified by the code
(`err == nil` / `apierrors.IsAlreadyExists` / default). -/
inductive CreateCMResult where
  | ok
  | alreadyExists
  | otherError
  deriving DecidableEq

/-- Result of `Pods(ns).Get` as classified by the code
(`apierrors.IsNotFound` / `err != nil` / evicted test / default). -/
inductive GetPodResult where
  | ok (p : Pod)
  | notFound
  | otherError
  deriving DecidableEq

/-- Result of `Pods(ns).Delete`; the code only logs a non-nil error
(`leader.go:112-114`), so this value never influences control flow. -/
inductive DeleteResult where
  | ok
  | err
  deriving DecidableEq

/-- Outcome of reading `/var/run/secrets/kubernetes.io/serviceaccount/namespace`
in `getNamespace` (`leader.go:172-183`): content, `os.IsNotExist`, or
another read error. -/
inductive NsResult where
  | ok (raw : String)
  | notExist
  | readError
  deriving DecidableEq

/-- The distinct error returns of `Become` and its helpers. -/
inductive BecomeError where
  | noNamespace
  | nsReadError
  | clusterConfigError
  | podNameUnset
  | apiError
  deriving DecidableEq

/-- The distinct successful / failing returns of `Become`.  The Go code
returns `nil` both at `leader.go:64` (existing lock owned by self) and
at `leader.go:91` (create succeeded); we keep the two return sites
apart. -/
inductive BecomeResult where
  | alreadyLeader
  | leader
  | err (e : BecomeError)
  deriving DecidableEq

/-- One orchestrator API call (or timed sleep) performed by the code, in
program order.  `sleep` records the nominal backoff (seconds) passed to
`wait.Jitter` at `leader.go:121`. -/
inductive Action where
  | getToken (name : String)
  | createToken (name : String) (owners : List OwnerReference)
  | getPod (name : String)
  | deletePod (name : String)
  | sleep (nominal : Nat)
  deriving DecidableEq

/-- External responses observed by one iteration of the retry loop
(`leader.go:86-126`).  `current` is a ghost field: the token actually
present in the store at the moment `Create` answered `AlreadyExists`;
the code never reads it (that is claim C1), but the fresh-fetch
semantics described by the spec would. -/
structure LoopEnv where
  createRes : CreateCMResult
  current : ConfigMap
  podGetRes : GetPodResult
  deleteRes : DeleteResult
  deriving DecidableEq

/-- All external responses observed by one run of `Become`.
`podNameVar` is the value of `os.Getenv("POD_NAME")` (`""` when the
variable is unset, as in Go). -/
structure BecomeEnv where
  nsRes : NsResult
  clusterConfigOk : Bool
  podNameVar : String
  myPodRes : GetPodResult
  getTokenRes : GetCMResult
  loopEnvs : List LoopEnv
  deriving DecidableEq

/-- `PodNameEnvVar` constant, `leader.go:22`. -/
def PodNameEnvVar : String := "POD_NAME"

/-- `maxBackoffInterval = time.Second * 16`, `leader.go:26`, in seconds. -/
def maxBackoffInterval : Nat := 16

/-- `isPodEvicted`, `leader.go:151-155`. -/
def isPodEvicted (pod : Pod) : Bool :=
  let podFailed := pod.phase == "Failed"
  let podEvicted := pod.reason == "Evicted"
  podFailed && podEvicted

/-- `getNamespace`, `leader.go:172-183`: read the service-account
namespace file, trimming surrounding whitespace. -/
def getNamespace (r : NsResult) : Except BecomeError String :=
  match r with
  | .ok raw => .ok raw.trim
  | .notExist => .error .noNamespace
  | .readError => .error .nsReadError

/-- `getMyPod`, `leader.go:157-170`: the env-var check happens before
any API call; only then is the pod fetched. -/
def getMyPod (env : BecomeEnv) : List Action × Except BecomeError Pod :=
  if env.podNameVar = "" then ([], .error .podNameUnset)
  else
    ([.getPod env.podNameVar],
      match env.myPodRes with
      | .ok p => .ok p
      | .notFound => .error .apiError
      | .otherError => .error .apiError)

/-- Owner reference built by `myOwnerRef`, `leader.go:141-146`. -/
def mkOwnerRef (p : Pod) : OwnerReference :=
  { apiVersion := "v1", kind := "Pod", name := p.name, uid := p.uid }

/-- `myOwnerRef`, `leader.go:135-149`. -/
def myOwnerRef (env : BecomeEnv) : List Action × Except BecomeError OwnerReference :=
  match getMyPod env with
  | (acts, .error e) => (acts, .error e)
  | (acts, .ok p) => (acts, .ok (mkOwnerRef p))

/-- The `*ConfigMap` value client-go's `Get` returns alongside a non-nil
error: a fresh zero `v1.ConfigMap{}` (in particular, no owner
references).  This is what `existing` holds after a NotFound initial
fetch at `leader.go:56`. -/
def emptyConfigMap : ConfigMap :=
  { name := "", nspace := "", ownerReferences := [] }

/-- `leader.go:122-124`: double the backoff only while it is below
`maxBackoffInterval`. -/
def nextBackoff (b : Nat) : Nat :=
  if b < maxBackoffInterval then b * 2 else b

/-- The `AlreadyExists` branch of the retry loop, `leader.go:92-118`:
inspect `existing` (the pre-loop snapshot), and either do nothing
(malformed lock / non-Pod owner), look the holder pod up and possibly
delete it, or abort on an unexpected pod-lookup error
(`leader.go:106-107`).  Returns the API calls issued and `some e` when
the branch makes `Become` return the error `e`.  The result of the
delete (`e.deleteRes`) is only logged by the code and so is not read
here. -/
def handleConflict (existing : ConfigMap) (e : LoopEnv) :
    List Action × Option BecomeError :=
  match existing.ownerReferences with
  | [o] =>
    if o.kind != "Pod" then ([], none)
    else
      match e.podGetRes with
      | .notFound => ([.getPod o.name], none)
      | .otherError => ([.getPod o.name], some .apiError)
      | .ok leaderPod =>
        if isPodEvicted leaderPod && leaderPod.deletionTimestamp.isNone then
          ([.getPod o.name, .deletePod leaderPod.name], none)
        else
          ([.getPod o.name], none)
  | _ => ([], none)

/-- The retry loop of `Become`, `leader.go:85-132`, with starting
backoff `b` (the call site uses `1`, i.e. `time.Second`): attempt the
create; on success return nil (leader); on `AlreadyExists` run the
conflict branch against the fixed snapshot `existing`, then sleep for
the jittered backoff and double it; on any other error return it.  The
list `envs` supplies each iteration's external responses; `none` means
the run is still looping when the list runs out. -/
def loopGo (existing : ConfigMap) (owner : OwnerReference) (lockName : String) :
    Nat → List LoopEnv → List Action × Option BecomeResult
  | _, [] => ([], none)
  | b, e :: rest =>
    match e.createRes with
    | .ok => ([.createToken lockName [owner]], some .leader)
    | .alreadyExists =>
      match handleConflict existing e with
      | (cacts, some er) =>
        (.createToken lockName [owner] :: cacts, some (.err er))
      | (cacts, none) =>
        let r := loopGo existing owner lockName (nextBackoff b) rest
        (.createToken lockName [owner] :: (cacts ++ .sleep b :: r.1), r.2)
    | .otherError => ([.createToken lockName [owner]], some (.err .apiError))

/-- `Become`, `leader.go:36-133`: namespace, in-cluster config, own
owner reference, initial token fetch (returning nil if any existing
owner reference carries our own name, `leader.go:60-65`), then the
retry loop with backoff starting at one second. -/
def Become (lockName : String) (env : BecomeEnv) :
    List Action × Option BecomeResult :=
  match getNamespace env.nsRes with
  | .error e => ([], some (.err e))
  | .ok _ns =>
    if env.clusterConfigOk then
      match myOwnerRef env with
      | (acts, .error e) => (acts, some (.err e))
      | (acts, .ok owner) =>
        match env.getTokenRes with
        | .ok existing =>
          if existing.ownerReferences.any (fun o => o.name == owner.name) then
            (acts ++ [.getToken lockName], some .alreadyLeader)
          else
            let r := loopGo existing owner lockName 1 env.loopEnvs
            (acts ++ .getToken lockName :: r.1, r.2)
        | .notFound =>
          let r := loopGo emptyConfigMap owner lockName 1 env.loopEnvs
          (acts ++ .getToken lockName :: r.1, r.2)
        | .otherError => (acts ++ [.getToken lockName], some (.err .apiError))
    else ([], some (.err .clusterConfigError))

/-- The token snapshot the retry loop works with: the initially fetched
ConfigMap, or the zero ConfigMap when the initial fetch did not return
one. -/
def effSnapshot (env : BecomeEnv) : ConfigMap :=
  match env.getTokenRes with
  | .ok cm => cm
  | _ => emptyConfigMap

/-- A snapshot the conflict branch treats as non-actionable: owner
reference count different from one, or a sole owner reference whose
kind is not `Pod` (`leader.go:95-99`). -/
def badSnapshot (cm : ConfigMap) : Bool :=
  match cm.ownerReferences with
  | [o] => o.kind != "Pod"
  | _ => true

/-- The nominal sleep durations (seconds) of a trace, in order:
arguments of the `sleep` actions. -/
def sleeps (acts : List Action) : List Nat :=
  acts.filterMap fun a =>
    match a with
    | .sleep b => some b
    | _ => none

/-- `wait.Jitter` from `k8s.io/apimachinery/pkg/util/wait` (external
library, not part of this repository): returns
`duration + rand.Float64()*maxFactor*duration`, where a non-positive
`maxFactor` is replaced by `1`.  `sample` stands for the
`rand.Float64()` draw, which lies in `[0,1)`. -/
def Jitter (duration maxFactor sample : Rat) : Rat :=
  let mf := if maxFactor ≤ 0 then 1 else maxFactor
  duration + sample * mf * duration

/-- Modelled from the spec: the orchestrator's atomic create-if-absent
for the token resource ("Creation of the token is atomic and fails if a
token with the same name already exists"), which is external to this
repository (the Kubernetes API server).  An empty store accepts the
create; a non-empty store answers `AlreadyExists` and is unchanged. -/
def storeCreate (store : Option ConfigMap) (cm : ConfigMap) :
    CreateCMResult × Option ConfigMap :=
  match store with
  | none => (.ok, some cm)
  | some old => (.alreadyExists, some old)

/-- Modelled from the spec: a linearization of concurrent create
attempts against the fake token store — each attempt's create is
applied atomically, in some serial order. -/
def runAttempts : Option ConfigMap → List ConfigMap →
    List CreateCMResult × Option ConfigMap
  | store, [] => ([], store)
  | store, cm :: rest =>
    let r := storeCreate store cm
    let rr := runAttempts r.2 rest
    (r.1 :: rr.1, rr.2)

/-! ## Helper lemmas -/

/-- The conflict branch never sleeps by itself: the sleep happens after
it, at `leader.go:120-121`. -/
lemma sleeps_handleConflict (existing : ConfigMap) (e : LoopEnv) :
    sleeps (handleConflict existing e).1 = [] := by
  rcases existing with ⟨nm, nsp, owners⟩
  rcases owners with _ | ⟨o, _ | ⟨o2, rest⟩⟩
  · rfl
  · simp only [handleConflict, ConfigMap.ownerReferences]
    by_cases hk : (o.kind != "Pod") = true
    · rw [if_pos hk]
      rfl
    · rw [if_neg hk]
      cases hp : e.podGetRes with
      | ok p =>
        dsimp only
        split <;> rfl
      | notFound => rfl
      | otherError => rfl
  · rfl

/-- A snapshot with owner-reference count ≠ 1, or a sole non-Pod owner,
makes the conflict branch a no-op (`leader.go:95-99`). -/
lemma handleConflict_of_bad (existing : ConfigMap) (e : LoopEnv)
    (h : badSnapshot existing = true) :
    handleConflict existing e = ([], none) := by
  rcases existing with ⟨nm, nsp, owners⟩
  rcases owners with _ | ⟨o, _ | ⟨o2, rest⟩⟩
  · rfl
  · simp only [badSnapshot, ConfigMap.ownerReferences] at h
    simp only [handleConflict, ConfigMap.ownerReferences]
    rw [if_pos h]
  · rfl

/-- When the conflict branch does not abort, the loop sleeps and goes
round again with the doubled backoff (`leader.go:120-125`). -/
lemma loopGo_continue (existing : ConfigMap) (owner : OwnerReference)
    (lockName : String) (b : Nat) (e : LoopEnv) (rest : List LoopEnv)
    (hc : e.createRes = .alreadyExists)
    (hh : (handleConflict existing e).2 = none) :
    loopGo existing owner lockName b (e :: rest) =
      (.createToken lockName [owner] ::
         ((handleConflict existing e).1 ++ .sleep b ::
            (loopGo existing owner lockName (nextBackoff b) rest).1),
       (loopGo existing owner lockName (nextBackoff b) rest).2) := by
  rcases hhc : handleConflict existing e with ⟨cacts, er⟩
  rcases er with _ | er
  · simp only [loopGo, hc, hhc]
  · rw [hhc] at hh
    cases hh

/-- Iterating the doubling step from `1` gives `min (2 ^ i) 16`:
the nominal sequence 1, 2, 4, 8, 16, 16, 16, ... -/
lemma iterate_nextBackoff (i : Nat) : nextBackoff^[i] 1 = min (2 ^ i) 16 := by
  induction i with
  | zero => decide
  | succ i ih =>
    rw [Function.iterate_succ_apply', ih]
    rcases le_or_lt i 3 with h | h
    · interval_cases i <;> decide
    · have h4 : 4 ≤ i := h
      have h16 : 16 ≤ 2 ^ i := by
        calc (16 : Nat) = 2 ^ 4 := by norm_num
        _ ≤ 2 ^ i := Nat.pow_le_pow_right (by norm_num) h4
      have h16s : 16 ≤ 2 ^ (i + 1) :=
        le_trans h16 (Nat.pow_le_pow_right (by norm_num) (Nat.le_succ i))
      rw [min_eq_right h16, min_eq_right h16s]
      simp [nextBackoff, maxBackoffInterval]

/-- The `i`-th sleep of the retry loop started with backoff `b` has
nominal duration `nextBackoff^[i] b`, whatever the per-iteration
responses are. -/
lemma loopGo_sleeps_getD (existing : ConfigMap) (owner : OwnerReference)
    (lockName : String) :
    ∀ (envs : List LoopEnv) (b i : Nat),
      i < (sleeps (loopGo existing owner lockName b envs).1).length →
      (sleeps (loopGo existing owner lockName b envs).1).getD i 0 =
        nextBackoff^[i] b := by
  intro envs
  induction envs with
  | nil =>
    intro b i h
    simp [loopGo, sleeps] at h
  | cons e rest ih =>
    intro b i h
    cases hc : e.createRes with
    | ok =>
      rw [loopGo, hc] at h
      simp [sleeps] at h
    | otherError =>
      rw [loopGo, hc] at h
      simp [sleeps] at h
    | alreadyExists =>
      rcases hhc : handleConflict existing e with ⟨cacts, er⟩
      rcases er with _ | er
      · have hs : sleeps (loopGo existing owner lockName b (e :: rest)).1 =
            b :: sleeps (loopGo existing owner lockName (nextBackoff b) rest).1 := by
          rw [loopGo, hc, hhc]
          dsimp only
          have hca : sleeps cacts = [] := by
            have := sleeps_handleConflict existing e
            rwa [hhc] at this
          simp [sleeps, List.filterMap_cons, List.filterMap_append] at hca ⊢
          exact hca
        rw [hs] at h ⊢
        cases i with
        | zero => simp
        | succ i =>
          simp only [List.getD_cons_succ]
          rw [Function.iterate_succ_apply]
          exact ih (nextBackoff b) i (by simpa using h)
      · rw [loopGo, hc, hhc] at h
        dsimp only at h
        have hca : sleeps cacts = [] := by
          have hsc := sleeps_handleConflict existing e
          rwa [hhc] at hsc
        have hcons : sleeps (Action.createToken lockName [owner] :: cacts) =
            sleeps cacts := by
          simp [sleeps, List.filterMap_cons]
        rw [hcons, hca] at h
        simp at h

/-- With a non-actionable snapshot the retry loop only ever creates and
sleeps: no pod is looked up or deleted in any iteration. -/
lemma loopGo_bad_mem (existing : ConfigMap) (owner : OwnerReference)
    (lockName : String) (hbad : badSnapshot existing = true) :
    ∀ (envs : List LoopEnv) (b : Nat) (a : Action),
      a ∈ (loopGo existing owner lockName b envs).1 →
      a = .createToken lockName [owner] ∨ ∃ d, a = .sleep d := by
  intro envs
  induction envs with
  | nil =>
    intro b a ha
    simp [loopGo] at ha
  | cons e rest ih =>
    intro b a ha
    cases hc : e.createRes with
    | ok =>
      rw [loopGo, hc] at ha
      simp at ha
      exact Or.inl ha
    | otherError =>
      rw [loopGo, hc] at ha
      simp at ha
      exact Or.inl ha
    | alreadyExists =>
      rw [loopGo, hc, handleConflict_of_bad existing e hbad] at ha
      dsimp only at ha
      simp only [List.nil_append, List.mem_cons] at ha
      rcases ha with ha | ha | ha
      · exact Or.inl ha
      · exact Or.inr ⟨b, ha⟩
      · exact ih (nextBackoff b) a ha

/-- Shape of a full `Become` run: either it stops in the prelude (empty
trace or the self-pod fetch / initial token fetch only), or it returns
`alreadyLeader` from the existing-owner scan, or it runs the retry loop
against the snapshot `effSnapshot env` with the owner reference built
from the fetched self pod — and the prelude contributes exactly the
self-pod fetch and the initial token fetch to the trace. -/
lemma Become_shape (lockName : String) (env : BecomeEnv) :
    (∃ r, Become lockName env = ([], some (.err r))) ∨
    (Become lockName env = ([.getPod env.podNameVar], some (.err .apiError))) ∨
    (Become lockName env =
      ([.getPod env.podNameVar, .getToken lockName], some (.err .apiError))) ∨
    (Become lockName env =
      ([.getPod env.podNameVar, .getToken lockName], some .alreadyLeader)) ∨
    (∃ p, env.myPodRes = .ok p ∧
      Become lockName env =
        (.getPod env.podNameVar :: .getToken lockName ::
           (loopGo (effSnapshot env) (mkOwnerRef p) lockName 1 env.loopEnvs).1,
         (loopGo (effSnapshot env) (mkOwnerRef p) lockName 1 env.loopEnvs).2)) := by
  rcases env with ⟨nsr, cc, pn, mp, gt, le⟩
  cases nsr with
  | notExist => exact Or.inl ⟨.noNamespace, rfl⟩
  | readError => exact Or.inl ⟨.nsReadError, rfl⟩
  | ok raw =>
    cases cc with
    | false => exact Or.inl ⟨.clusterConfigError, rfl⟩
    | true =>
      by_cases hpn : pn = ""
      · subst hpn
        exact Or.inl ⟨.podNameUnset, rfl⟩
      · cases mp with
        | notFound =>
          refine Or.inr (Or.inl ?_)
          simp [Become, getNamespace, myOwnerRef, getMyPod, hpn]
        | otherError =>
          refine Or.inr (Or.inl ?_)
          simp [Become, getNamespace, myOwnerRef, getMyPod, hpn]
        | ok p =>
          cases gt with
          | otherError =>
            refine Or.inr (Or.inr (Or.inl ?_))
            simp [Become, getNamespace, myOwnerRef, getMyPod, hpn]
          | notFound =>
            refine Or.inr (Or.inr (Or.inr (Or.inr ⟨p, rfl, ?_⟩)))
            simp [Become, getNamespace, myOwnerRef, getMyPod, hpn, effSnapshot]
          | ok cm =>
            by_cases hmatch :
                cm.ownerReferences.any (fun o => o.name == (mkOwnerRef p).name) = true
            · refine Or.inr (Or.inr (Or.inr (Or.inl ?_)))
              simp [Become, getNamespace, myOwnerRef, getMyPod, hpn, hmatch]
            · refine Or.inr (Or.inr (Or.inr (Or.inr ⟨p, rfl, ?_⟩)))
              simp [Become, getNamespace, myOwnerRef, getMyPod, hpn, hmatch,
                effSnapshot]

/-- Every action of a `Become` trace is the self-pod fetch, the initial
token fetch, or an action of the retry loop run against `effSnapshot`. -/
lemma Become_mem (lockName : String) (env : BecomeEnv) (a : Action)
    (ha : a ∈ (Become lockName env).1) :
    a = .getPod env.podNameVar ∨ a = .getToken lockName ∨
    ∃ p, a ∈ (loopGo (effSnapshot env) (mkOwnerRef p) lockName 1 env.loopEnvs).1 := by
  rcases Become_shape lockName env with ⟨r, h⟩ | h | h | h | ⟨p, hp, h⟩ <;>
    rw [h] at ha <;> simp at ha
  · exact Or.inl ha
  · tauto
  · tauto
  · rcases ha with ha | ha | ha
    · exact Or.inl ha
    · exact Or.inr (Or.inl ha)
    · exact Or.inr (Or.inr ⟨p, ha⟩)

/-- The sleeps of a `Become` trace are exactly the sleeps of its retry
loop (the prelude never sleeps). -/
lemma Become_sleeps (lockName : String) (env : BecomeEnv) :
    sleeps (Become lockName env).1 = [] ∨
    ∃ p, sleeps (Become lockName env).1 =
      sleeps (loopGo (effSnapshot env) (mkOwnerRef p) lockName 1 env.loopEnvs).1 := by
  rcases Become_shape lockName env with ⟨r, h⟩ | h | h | h | ⟨p, hp, h⟩ <;> rw [h]
  · exact Or.inl rfl
  · exact Or.inl rfl
  · exact Or.inl rfl
  · exact Or.inl rfl
  · refine Or.inr ⟨p, ?_⟩
    simp [sleeps, List.filterMap_cons]

/-- Once the fake token store is occupied, every later create attempt
answers `AlreadyExists` and the store keeps the winning token. -/
lemma runAttempts_some (c : ConfigMap) :
    ∀ l : List ConfigMap,
      runAttempts (some c) l = (l.map fun _ => CreateCMResult.alreadyExists, some c) := by
  intro l
  induction l with
  | nil => rfl
  | cons cm rest ih => simp [runAttempts, storeCreate, ih]

/-! ## Concrete fixtures -/

/-- This process's own pod. -/
def mePod : Pod := ⟨"me", "uid-me", "Running", "", none⟩

/-- Owner reference of a competing lock holder. -/
def ownerHolder : OwnerReference := ⟨"v1", "Pod", "holder-pod", "uid-holder"⟩

/-- A well-formed lock ConfigMap held by `holder-pod`. -/
def cmHolder : ConfigMap := ⟨"memcached-lock", "ns", [ownerHolder]⟩

/-- The holder pod in the evicted state: phase `Failed`, reason
`Evicted`, no deletion timestamp. -/
def evictedHolder : Pod := ⟨"holder-pod", "uid-holder", "Failed", "Evicted", none⟩

/-- The holder pod alive. -/
def runningHolder : Pod := ⟨"holder-pod", "uid-holder", "Running", "", none⟩

/-- Loop iteration: create conflicts while the store holds `cmHolder`,
whose holder is evicted. -/
def staleLoopEnv : LoopEnv := ⟨.alreadyExists, cmHolder, .ok evictedHolder, .ok⟩

/-- Run for C1: the initial fetch finds no token, and the one recorded
retry iteration hits a conflict while the store holds `cmHolder`. -/
def staleEnv : BecomeEnv := ⟨.ok "ns", true, "me", .ok mePod, .notFound, [staleLoopEnv]⟩

/-! ## Claim theorems -/

/-- C1: the claim says every retry iteration that observes an
`AlreadyExists` conflict makes its reclaimer decision on the token
re-read from the store in that iteration.  The code does not: the loop
at `leader.go:86-132` never re-fetches the token and inspects the
pre-loop snapshot `existing` (`leader.go:93`).  In this concrete run
the initial fetch was NotFound, the conflicting iteration finds the
store holding `cmHolder` whose owner pod is evicted, yet the trace
shows a single `getToken` (the initial one), no holder lookup and no
delete — while the decision on the re-read token (second conjunct)
would look the holder up and delete it. -/
theorem stale_snapshot_drives_conflict_decision :
    Become "memcached-lock" staleEnv =
      ([.getPod "me", .getToken "memcached-lock",
        .createToken "memcached-lock" [⟨"v1", "Pod", "me", "uid-me"⟩], .sleep 1],
       none)
  ∧ handleConflict staleLoopEnv.current staleLoopEnv =
      ([.getPod "holder-pod", .deletePod "holder-pod"], none) := by
  decide

/-- A two-owner lock ConfigMap, one owner reference being our own pod. -/
def cmTwoOwners : ConfigMap :=
  ⟨"memcached-lock", "ns", [⟨"v1", "Pod", "other-pod", "uid-other"⟩,
    ⟨"v1", "Pod", "me", "uid-me"⟩]⟩

/-- Run for the C2 counterexample: the initial fetch returns the
malformed two-owner token. -/
def twoOwnerEnv : BecomeEnv := ⟨.ok "ns", true, "me", .ok mePod, .ok cmTwoOwners, []⟩

/-- C2, counterexample: the claim says that in any state that examines
a token with zero or more than one owner references the engine only
logs and waits, with no success return.  But the initial
existing-owner scan (`leader.go:60-65`) returns success on a self-name
match without checking the owner count: here the fetched token has two
owner references and `Become` returns the `alreadyLeader` success. -/
theorem two_owner_token_success_cex :
    cmTwoOwners.ownerReferences.length = 2 ∧
    twoOwnerEnv.getTokenRes = .ok cmTwoOwners ∧
    (Become "memcached-lock" twoOwnerEnv).2 = some .alreadyLeader := by
  decide

/-- C2, amended: in the retry loop's conflict branch a snapshot whose
owner-reference count is not one is treated as malformed — the branch
issues no API call, does not abort and does not succeed, and the loop
just sleeps the jittered backoff and retries (the initial
existing-owner scan, by contrast, returns success on a self-name match
whatever the owner count). -/
theorem malformed_token_conflict_waits (existing : ConfigMap) (e : LoopEnv)
    (h : existing.ownerReferences.length ≠ 1) :
    handleConflict existing e = ([], none) ∧
    ∀ (owner : OwnerReference) (lockName : String) (b : Nat) (rest : List LoopEnv),
      e.createRes = .alreadyExists →
      loopGo existing owner lockName b (e :: rest) =
        (.createToken lockName [owner] :: .sleep b ::
           (loopGo existing owner lockName (nextBackoff b) rest).1,
         (loopGo existing owner lockName (nextBackoff b) rest).2) := by
  have hbad : badSnapshot existing = true := by
    unfold badSnapshot
    rcases hos : existing.ownerReferences with _ | ⟨o, _ | ⟨o2, r⟩⟩
    · rfl
    · rw [hos] at h
      simp at h
    · rfl
  have hhc := handleConflict_of_bad existing e hbad
  refine ⟨hhc, fun owner lockName b rest hc => ?_⟩
  rw [loopGo_continue existing owner lockName b e rest hc (by rw [hhc]), hhc]
  simp

/-- A conflict iteration whose snapshot carries no owner reference. -/
def noOwnerLoopEnv : LoopEnv := ⟨.alreadyExists, emptyConfigMap, .notFound, .ok⟩

/-- Witness for the amended C2 at a concrete zero-owner snapshot. -/
theorem malformed_token_conflict_waits_witness :
    handleConflict emptyConfigMap noOwnerLoopEnv = ([], none) :=
  (malformed_token_conflict_waits emptyConfigMap noOwnerLoopEnv (by decide)).1

/-- C4: when the initial fetch succeeds and some existing owner
reference carries this process's own pod name, `Become` returns the
restart success (`leader.go:60-65`) and its trace contains no create
call. -/
theorem idempotent_restart_already_leader (lockName : String) (env : BecomeEnv)
    (raw : String) (p : Pod) (cm : ConfigMap)
    (hns : env.nsRes = .ok raw) (hcc : env.clusterConfigOk = true)
    (hpn : env.podNameVar ≠ "") (hmp : env.myPodRes = .ok p)
    (hgt : env.getTokenRes = .ok cm)
    (hmatch : cm.ownerReferences.any (fun o => o.name == p.name) = true) :
    (Become lockName env).2 = some .alreadyLeader ∧
    ∀ (n : String) (os : List OwnerReference),
      Action.createToken n os ∉ (Become lockName env).1 := by
  rcases env with ⟨nsr, cc, pn, mp, gt, le⟩
  dsimp only at hns hcc hpn hmp hgt
  subst hns hcc hmp hgt
  have hB : Become lockName ⟨.ok raw, true, pn, .ok p, .ok cm, le⟩ =
      ([.getPod pn, .getToken lockName], some .alreadyLeader) := by
    simp [Become, getNamespace, myOwnerRef, getMyPod, hpn, mkOwnerRef, hmatch]
  rw [hB]
  exact ⟨rfl, by intro n os hmem; simp at hmem⟩

/-- A well-formed lock owned by our own pod, as left over by a restart. -/
def cmMine : ConfigMap := ⟨"memcached-lock", "ns", [⟨"v1", "Pod", "me", "uid-me"⟩]⟩

/-- Run for the C4 witness: the initial fetch returns our own lock. -/
def restartEnv : BecomeEnv := ⟨.ok "ns", true, "me", .ok mePod, .ok cmMine, []⟩

/-- Witness for C4 at a concrete restarted-leader run. -/
theorem idempotent_restart_already_leader_witness :
    (Become "memcached-lock" restartEnv).2 = some .alreadyLeader ∧
    Action.createToken "memcached-lock" [⟨"v1", "Pod", "me", "uid-me"⟩] ∉
      (Become "memcached-lock" restartEnv).1 :=
  ⟨(idempotent_restart_already_leader "memcached-lock" restartEnv "ns" mePod cmMine
      rfl rfl (by decide) rfl rfl (by decide)).1,
   (idempotent_restart_already_leader "memcached-lock" restartEnv "ns" mePod cmMine
      rfl rfl (by decide) rfl rfl (by decide)).2
     "memcached-lock" [⟨"v1", "Pod", "me", "uid-me"⟩]⟩

/-- C5: with a single-Pod-owner snapshot, a holder found evicted
(phase `Failed`, reason `Evicted`) with no deletion timestamp triggers
exactly one delete, of the fetched holder's name (`leader.go:108-114`);
any other found holder triggers no delete; and the branch never aborts
in either case — whatever the delete result, the loop proceeds to the
backoff sleep and retries (`leader.go:120-125`). -/
theorem eviction_reclamation_deletes_once (existing : ConfigMap)
    (o : OwnerReference) (e : LoopEnv) (p : Pod)
    (hos : existing.ownerReferences = [o]) (hk : o.kind = "Pod")
    (hp : e.podGetRes = .ok p) :
    (isPodEvicted p = true → p.deletionTimestamp = none →
       handleConflict existing e = ([.getPod o.name, .deletePod p.name], none))
  ∧ (¬ (isPodEvicted p = true ∧ p.deletionTimestamp = none) →
       handleConflict existing e = ([.getPod o.name], none))
  ∧ (∀ (owner : OwnerReference) (lockName : String) (b : Nat) (rest : List LoopEnv),
       e.createRes = .alreadyExists → (handleConflict existing e).2 = none →
       (loopGo existing owner lockName b (e :: rest)).2 =
         (loopGo existing owner lockName (nextBackoff b) rest).2) := by
  have hred : handleConflict existing e =
      (if isPodEvicted p && p.deletionTimestamp.isNone then
         ([.getPod o.name, .deletePod p.name], none)
       else ([.getPod o.name], none)) := by
    unfold handleConflict
    rw [hos]
    dsimp only
    rw [hk, if_neg (by simp), hp]
  refine ⟨?_, ?_, ?_⟩
  · intro h1 h2
    rw [hred, if_pos (by simp [h1, h2])]
  · intro hno
    have hcond : ¬ ((isPodEvicted p && p.deletionTimestamp.isNone) = true) := by
      simp only [Bool.and_eq_true, Option.isNone_iff_eq_none]
      intro hc
      exact hno ⟨hc.1, hc.2⟩
    rw [hred, if_neg hcond]
  · intro owner lockName b rest hc hnone
    rw [loopGo_continue existing owner lockName b e rest hc hnone]

/-- A conflict iteration that finds the holder evicted; the delete
itself fails (and is only logged by the code). -/
def evictLoopEnv : LoopEnv := ⟨.alreadyExists, cmHolder, .ok evictedHolder, .err⟩

/-- A conflict iteration that finds the holder alive. -/
def runningLoopEnv : LoopEnv := ⟨.alreadyExists, cmHolder, .ok runningHolder, .ok⟩

/-- Witness for C5: the evicted holder is deleted exactly once, the
running holder not at all. -/
theorem eviction_reclamation_deletes_once_witness :
    handleConflict cmHolder evictLoopEnv =
      ([.getPod "holder-pod", .deletePod "holder-pod"], none) ∧
    handleConflict cmHolder runningLoopEnv = ([.getPod "holder-pod"], none) :=
  ⟨(eviction_reclamation_deletes_once cmHolder ownerHolder evictLoopEnv evictedHolder
      rfl rfl rfl).1 (by decide) rfl,
   (eviction_reclamation_deletes_once cmHolder ownerHolder runningLoopEnv runningHolder
      rfl rfl rfl).2.1 (by decide)⟩

/-- C8: with the identity environment variable unset, `Become` returns
the configuration error from `getMyPod` (`leader.go:158-161`) and its
trace is empty — no token get/create and no peer get/delete was
attempted. -/
theorem missing_pod_name_no_api_calls (lockName : String) (env : BecomeEnv)
    (raw : String) (hns : env.nsRes = .ok raw) (hcc : env.clusterConfigOk = true)
    (hpn : env.podNameVar = "") :
    Become lockName env = ([], some (.err .podNameUnset)) := by
  rcases env with ⟨nsr, cc, pn, mp, gt, le⟩
  dsimp only at hns hcc hpn
  subst hns hcc hpn
  rfl

/-- Run for the C8 witness: `POD_NAME` unset. -/
def noNameEnv : BecomeEnv := ⟨.ok "ns", true, "", .ok mePod, .notFound, []⟩

/-- Witness for C8 at a concrete run with `POD_NAME` unset. -/
theorem missing_pod_name_no_api_calls_witness :
    Become "memcached-lock" noNameEnv = ([], some (.err .podNameUnset)) :=
  missing_pod_name_no_api_calls "memcached-lock" noNameEnv "ns" rfl rfl rfl

/-- C3: in every run of `Become` the nominal sleep durations are
1, 2, 4, 8, 16, 16, ... seconds — the `i`-th sleep is `min (2 ^ i) 16`,
so the backoff starts at one second, doubles each cycle, caps at
exactly sixteen seconds and never decreases — and every sampled
jittered sleep `wait.Jitter(backoff, .2)` lies within ±20% of the
cycle's nominal backoff. -/
theorem backoff_and_jitter_bounds :
    (∀ (lockName : String) (env : BecomeEnv) (i : Nat),
       i < (sleeps (Become lockName env).1).length →
       (sleeps (Become lockName env).1).getD i 0 = min (2 ^ i) 16)
  ∧ (∀ (lockName : String) (env : BecomeEnv) (i j : Nat),
       i ≤ j → j < (sleeps (Become lockName env).1).length →
       (sleeps (Become lockName env).1).getD i 0 ≤
         (sleeps (Become lockName env).1).getD j 0)
  ∧ (∀ b s : Rat, 0 < b → 0 ≤ s → s < 1 →
       b ≤ Jitter b (1/5) s ∧ |Jitter b (1/5) s - b| ≤ (1/5) * b) := by
  have h1 : ∀ (lockName : String) (env : BecomeEnv) (i : Nat),
      i < (sleeps (Become lockName env).1).length →
      (sleeps (Become lockName env).1).getD i 0 = min (2 ^ i) 16 := by
    intro lockName env i h
    rcases Become_sleeps lockName env with hs | ⟨p, hs⟩
    · rw [hs] at h
      simp at h
    · rw [hs] at h ⊢
      rw [loopGo_sleeps_getD _ _ _ _ 1 i h, iterate_nextBackoff]
  refine ⟨h1, ?_, ?_⟩
  · intro lockName env i j hij hj
    rw [h1 lockName env i (lt_of_le_of_lt hij hj), h1 lockName env j hj]
    exact min_le_min (Nat.pow_le_pow_right (by norm_num) hij) le_rfl
  · intro b s hb hs0 hs1
    have hmf : ¬ ((1 : Rat)/5 ≤ 0) := by norm_num
    have hJ : Jitter b (1/5) s = b + s * (1/5) * b := by
      dsimp [Jitter]
      rw [if_neg hmf]
    have hx : (0 : Rat) ≤ s * (1/5) * b :=
      mul_nonneg (mul_nonneg hs0 (by norm_num)) hb.le
    constructor
    · rw [hJ]
      linarith
    · rw [hJ]
      have hsub : b + s * (1/5) * b - b = s * (1/5) * b := by ring
      rw [hsub, abs_of_nonneg hx]
      nlinarith [mul_nonneg (sub_nonneg.mpr hs1.le) hb.le]

/-- Run for the C3 witness: two conflicting iterations, so the trace
sleeps twice (1 s then 2 s nominal). -/
def backoffEnvW : BecomeEnv :=
  ⟨.ok "ns", true, "me", .ok mePod, .notFound, [noOwnerLoopEnv, noOwnerLoopEnv]⟩

/-- Witness for C3: the second sleep of a concrete run is 2 seconds,
and the jitter bound at `b = 1`, `sample = 1/2`. -/
theorem backoff_and_jitter_bounds_witness :
    (sleeps (Become "memcached-lock" backoffEnvW).1).getD 1 0 = min (2 ^ 1) 16 ∧
    (1 : Rat) ≤ Jitter 1 (1/5) (1/2) ∧ |Jitter 1 (1/5) (1/2) - 1| ≤ (1/5) * 1 :=
  ⟨backoff_and_jitter_bounds.1 "memcached-lock" backoffEnvW 1 (by decide),
   (backoff_and_jitter_bounds.2.2 1 (1/2) (by norm_num) (by norm_num) (by norm_num)).1,
   (backoff_and_jitter_bounds.2.2 1 (1/2) (by norm_num) (by norm_num) (by norm_num)).2⟩

/-- C6: when the snapshot the retry loop examines has owner-reference
count ≠ 1 or a sole owner of kind other than `Pod`, no delete of any
pod is ever issued, anywhere in the run. -/
theorem malformed_snapshot_never_deletes (lockName : String) (env : BecomeEnv)
    (h : badSnapshot (effSnapshot env) = true) (s : String) :
    Action.deletePod s ∉ (Become lockName env).1 := by
  intro hmem
  rcases Become_mem lockName env _ hmem with h1 | h1 | ⟨p, h1⟩
  · exact Action.noConfusion h1
  · exact Action.noConfusion h1
  · rcases loopGo_bad_mem _ _ _ h env.loopEnvs 1 _ h1 with h2 | ⟨d, h2⟩
    · exact Action.noConfusion h2
    · exact Action.noConfusion h2

/-- A lock ConfigMap whose sole owner reference is not a Pod. -/
def cmNonPodOwner : ConfigMap :=
  ⟨"memcached-lock", "ns", [⟨"v1", "ReplicaSet", "rs-1", "uid-rs"⟩]⟩

/-- Run for the C6 witness: conflicting against a non-Pod-owned token. -/
def nonPodEnv : BecomeEnv :=
  ⟨.ok "ns", true, "me", .ok mePod, .ok cmNonPodOwner,
   [⟨.alreadyExists, cmNonPodOwner, .notFound, .ok⟩]⟩

/-- Witness for C6 at a concrete run against a non-Pod-owned token. -/
theorem malformed_snapshot_never_deletes_witness :
    Action.deletePod "rs-1" ∉ (Become "memcached-lock" nonPodEnv).1 :=
  malformed_snapshot_never_deletes "memcached-lock" nonPodEnv (by decide) "rs-1"

/-- Conflict iteration in which the holder pod lookup fails with an
unexpected (non-NotFound) error. -/
def lookupFailLoopEnv : LoopEnv := ⟨.alreadyExists, cmHolder, .otherError, .ok⟩

/-- Run for the C7 counterexample: a conflict against `cmHolder`
followed by a failing holder lookup. -/
def lookupFailEnv : BecomeEnv :=
  ⟨.ok "ns", true, "me", .ok mePod, .ok cmHolder, [lookupFailLoopEnv]⟩

/-- C7, counterexample: the claim says no failure of any reclamation
sub-step aborts the entry point.  But `leader.go:106-107` returns the
error of a non-NotFound holder lookup: in this run the conflicting
token is well-formed, the holder lookup fails, and `Become` aborts
with that error instead of backing off. -/
theorem reclaim_lookup_error_aborts_cex :
    lookupFailEnv.getTokenRes = .ok cmHolder ∧
    lookupFailLoopEnv.podGetRes = .otherError ∧
    (Become "memcached-lock" lookupFailEnv).2 = some (.err .apiError) := by
  decide

/-- C7, amended: reclamation is best-effort for a missing holder
(NotFound lookup) and for the delete (whose outcome is never read, only
logged): in those cases the branch does not abort and the loop backs
off and retries.  A non-NotFound holder-lookup error, however, is
propagated and aborts the entry point (`leader.go:106-107`). -/
theorem reclaim_best_effort_except_lookup (existing : ConfigMap)
    (o : OwnerReference) (e : LoopEnv)
    (hos : existing.ownerReferences = [o]) (hk : o.kind = "Pod") :
    (e.podGetRes = .notFound → handleConflict existing e = ([.getPod o.name], none))
  ∧ (∀ p, e.podGetRes = .ok p → (handleConflict existing e).2 = none)
  ∧ (e.podGetRes = .otherError →
       handleConflict existing e = ([.getPod o.name], some .apiError) ∧
       ∀ (owner : OwnerReference) (lockName : String) (b : Nat) (rest : List LoopEnv),
         e.createRes = .alreadyExists →
         loopGo existing owner lockName b (e :: rest) =
           ([.createToken lockName [owner], .getPod o.name],
            some (.err .apiError))) := by
  have hstep : handleConflict existing e =
      (match e.podGetRes with
       | .notFound => ([.getPod o.name], none)
       | .otherError => ([.getPod o.name], some .apiError)
       | .ok leaderPod =>
         if isPodEvicted leaderPod && leaderPod.deletionTimestamp.isNone then
           ([.getPod o.name, .deletePod leaderPod.name], none)
         else ([.getPod o.name], none)) := by
    unfold handleConflict
    rw [hos]
    dsimp only
    rw [hk, if_neg (by simp)]
  refine ⟨?_, ?_, ?_⟩
  · intro hnf
    rw [hstep, hnf]
  · intro p hp
    rw [hstep, hp]
    dsimp only
    split <;> rfl
  · intro hoe
    have hcf : handleConflict existing e = ([.getPod o.name], some .apiError) := by
      rw [hstep, hoe]
    refine ⟨hcf, ?_⟩
    intro owner lockName b rest hc
    simp [loopGo, hc, hcf]

/-- Conflict iteration in which the holder pod is already gone. -/
def notFoundLoopEnv : LoopEnv := ⟨.alreadyExists, cmHolder, .notFound, .ok⟩

/-- Witness for the amended C7: a gone holder does not abort, a failing
holder lookup does. -/
theorem reclaim_best_effort_except_lookup_witness :
    handleConflict cmHolder notFoundLoopEnv = ([.getPod "holder-pod"], none) ∧
    handleConflict cmHolder lookupFailLoopEnv =
      ([.getPod "holder-pod"], some .apiError) :=
  ⟨(reclaim_best_effort_except_lookup cmHolder ownerHolder notFoundLoopEnv
      rfl rfl).1 rfl,
   ((reclaim_best_effort_except_lookup cmHolder ownerHolder lookupFailLoopEnv
      rfl rfl).2.2 rfl).1⟩

/-- C9: in any linearization of concurrent create attempts against the
initially empty token store, exactly the first attempt succeeds and
every other observes `AlreadyExists` (the winner's token is what the
store keeps); and a process whose create succeeds returns from the
retry loop as the leader (`leader.go:89-91`). -/
theorem atomic_create_mutual_exclusion :
    (∀ (cm : ConfigMap) (rest : List ConfigMap),
       runAttempts none (cm :: rest) =
         (CreateCMResult.ok :: rest.map (fun _ => CreateCMResult.alreadyExists),
          some cm))
  ∧ (∀ (existing : ConfigMap) (owner : OwnerReference) (lockName : String)
       (b : Nat) (e : LoopEnv) (rest : List LoopEnv),
       e.createRes = .ok →
       (loopGo existing owner lockName b (e :: rest)).2 = some .leader) := by
  constructor
  · intro cm rest
    simp [runAttempts, storeCreate, runAttempts_some]
  · intro existing owner lockName b e rest hc
    simp [loopGo, hc]

/-- Witness for C9: two serialized attempts — the first wins, the
second conflicts — and a winning iteration returns leader. -/
theorem atomic_create_mutual_exclusion_witness :
    runAttempts none [cmHolder, cmMine] =
      ([CreateCMResult.ok, CreateCMResult.alreadyExists], some cmHolder) ∧
    (loopGo emptyConfigMap ownerHolder "memcached-lock" 1
       [⟨.ok, emptyConfigMap, .notFound, .ok⟩]).2 = some .leader := by
  constructor
  · have h := atomic_create_mutual_exclusion.1 cmHolder [cmMine]
    simpa using h
  · exact atomic_create_mutual_exclusion.2 emptyConfigMap ownerHolder
      "memcached-lock" 1 ⟨.ok, emptyConfigMap, .notFound, .ok⟩ [] rfl

/-- C10: when the initial fetch returns NotFound, the snapshot the loop
examines is the zero ConfigMap, every conflict takes the malformed-lock
branch, and for its whole lifetime the run deletes no pod and fetches
no pod other than its own self-lookup in the prelude. -/
theorem notfound_snapshot_skips_holder_inspection (lockName : String)
    (env : BecomeEnv) (h : env.getTokenRes = .notFound) (s : String) :
    Action.deletePod s ∉ (Become lockName env).1 ∧
    (Action.getPod s ∈ (Become lockName env).1 → s = env.podNameVar) := by
  have heff : effSnapshot env = emptyConfigMap := by
    unfold effSnapshot
    rw [h]
  have hbad : badSnapshot (effSnapshot env) = true := by
    rw [heff]
    rfl
  constructor
  · intro hmem
    rcases Become_mem lockName env _ hmem with h1 | h1 | ⟨p, h1⟩
    · exact Action.noConfusion h1
    · exact Action.noConfusion h1
    · rcases loopGo_bad_mem _ _ _ hbad env.loopEnvs 1 _ h1 with h2 | ⟨d, h2⟩
      · exact Action.noConfusion h2
      · exact Action.noConfusion h2
  · intro hmem
    rcases Become_mem lockName env _ hmem with h1 | h1 | ⟨p, h1⟩
    · injection h1
    · exact Action.noConfusion h1
    · rcases loopGo_bad_mem _ _ _ hbad env.loopEnvs 1 _ h1 with h2 | ⟨d, h2⟩
      · exact Action.noConfusion h2
      · exact Action.noConfusion h2

/-- Witness for C10: in the NotFound run `staleEnv`, the evicted
holder `holder-pod` is never fetched or deleted. -/
theorem notfound_snapshot_skips_holder_inspection_witness :
    Action.deletePod "holder-pod" ∉ (Become "memcached-lock" staleEnv).1 ∧
    (Action.getPod "holder-pod" ∈ (Become "memcached-lock" staleEnv).1 →
       "holder-pod" = staleEnv.podNameVar) :=
  notfound_snapshot_skips_holder_inspection "memcached-lock" staleEnv rfl
    "holder-pod"

end K8sLeader
